import Mathlib

/-!
Verification of `src/iagos_envri/iagos_introspection.py` (ENVRI-ID token
introspection demo client).

The Python module is shallowly embedded: each HTTP response is a record of
the fields the code reads (status code, the JSON fields it accesses, the raw
body text), and the device-flow polling loop `while True: ...` is embedded as
structural recursion over the finite list of token-endpoint responses the
server produces.  The embedding records the observable effects of a run: the
token requests issued (with their form data), the sleep durations, and the
final outcome (returned header / raised exception / still polling when the
given response list is exhausted).
-/

namespace IagosEnvri

/-- Constant `SERVICE_URL` from the module top level. -/
def SERVICE_URL : String := "https://api.sedoo.fr/iagos-backend-test/v2.0/downloads"

/-- Constant `AUTH_BASE_URL` from the module top level. -/
def AUTH_BASE_URL : String := "https://login.staging.envri.eu/auth/realms/envri/protocol/openid-connect"

/-- Embedding of `getHeader`: the operator enters `token` at the prompt and the
function returns the dict
`('Authorization': 'Bearer ' + token, 'Accept': 'application/octet-stream')`.
The Python dict is modelled as an association list of its two entries. -/
def getHeader (token : String) : List (String × String) :=
  [("Authorization", "Bearer " ++ token), ("Accept", "application/octet-stream")]

/-- The form data of one POST to the token endpoint (`requests.post` body in
the polling loop of `getHeaderOAuth`). -/
structure TokenRequest where
  grant_type : String
  device_code : String
  client_id : String
deriving Repr, DecidableEq

/-- The token request the loop body builds: grant type and client id are the
literals from the source; the device code is the one stored from the
device-authorization response. -/
def mkTokenRequest (device_code : String) : TokenRequest :=
  { grant_type := "urn:ietf:params:oauth:grant-type:device_code"
    device_code := device_code
    client_id := "envri-token-cli" }

/-- A token-endpoint response, holding exactly what `getHeaderOAuth` reads:
the status code, the JSON field `access_token` (read as
`token_data['access_token']`, so `none` means a KeyError), the JSON field
`error` (read as `error_data.get('error')`, so `none` means absent), and the
raw body text / payload used in error messages. -/
structure TokenResponse where
  status : Nat
  access_token : Option String
  error : Option String
  text : String
deriving Repr, DecidableEq

/-- What one iteration of the polling loop does with one response. -/
inductive StepResult where
  /-- `return (header with this access token)` -/
  | success (t : String) : StepResult
  /-- `time.sleep(sleepFor)` then `continue` with `interval = newInterval` -/
  | retry (sleepFor newInterval : Nat) : StepResult
  /-- `raise Exception(msg)` -/
  | exnRaise (msg : String) : StepResult
deriving Repr, DecidableEq

/-- One iteration of the `while True` loop body of `getHeaderOAuth`, given the
current `interval` and the token-endpoint response.  The if/elif chain mirrors
the source line by line (lines 79-106). -/
def pollStep (interval : Nat) (r : TokenResponse) : StepResult :=
  if r.status = 200 then
    match r.access_token with
    | some t => .success t
    | none => .exnRaise "KeyError: access_token"
  else if r.status = 400 then
    let error_type := r.error
    if error_type = some "authorization_pending" then
      .retry interval interval
    else if error_type = some "slow_down" then
      .retry (interval + 5) (interval + 5)
    else if error_type = some "expired_token" then
      .exnRaise "Device code expired. Please restart the authentication process."
    else if error_type = some "access_denied" then
      .exnRaise "Access denied by user."
    else
      .exnRaise ("Authentication error: " ++ r.text)
  else
    .exnRaise ("Token request failed: " ++ toString r.status ++ " - " ++ r.text)

/-- The header dict returned on success:
`('Authorization': 'Bearer ' + access_token, 'Accept': 'application/octet-stream')`. -/
def authHeader (t : String) : List (String × String) :=
  [("Authorization", "Bearer " ++ t), ("Accept", "application/octet-stream")]

/-- Final outcome of a run of the polling loop against a finite list of
responses. -/
inductive Outcome where
  /-- the function returned this header -/
  | done (header : List (String × String)) : Outcome
  /-- the function raised an exception with this message -/
  | exn (msg : String) : Outcome
  /-- the supplied response list is exhausted and the loop is about to issue
  its next token request, with this current `interval` -/
  | polling (interval : Nat) : Outcome
deriving Repr, DecidableEq

/-- Observable record of a run of the polling loop: the outcome, the token
requests issued in order, and the sleep durations in order. -/
structure LoopResult where
  outcome : Outcome
  requests : List TokenRequest
  sleeps : List Nat
deriving Repr, DecidableEq

/-- The `while True` polling loop of `getHeaderOAuth` (lines 69-106), run
against the finite list of responses the token endpoint produces.  Each
iteration issues one request; `pollStep` decides whether the loop returns,
sleeps and continues (possibly with an updated interval), or raises. -/
def pollLoop (device_code : String) (interval : Nat) :
    List TokenResponse → LoopResult
  | [] => ⟨.polling interval, [], []⟩
  | r :: rs =>
    let req := mkTokenRequest device_code
    match pollStep interval r with
    | .success t => ⟨.done (authHeader t), [req], []⟩
    | .exnRaise m => ⟨.exn m, [req], []⟩
    | .retry s i2 =>
      let rest := pollLoop device_code i2 rs
      ⟨rest.outcome, req :: rest.requests, s :: rest.sleeps⟩

/-- A device-authorization-endpoint response, holding what `getHeaderOAuth`
reads from it: status code, the four JSON fields (each `none` when absent,
which in Python raises KeyError), and the raw body text. -/
structure DeviceResponse where
  status : Nat
  device_code : Option String
  interval : Option Nat
  expires_in : Option Nat
  verification_uri_complete : Option String
  text : String
deriving Repr, DecidableEq

/-- Result of `getHeaderOAuth`: either it raised before entering the polling
loop (non-200 device response, or a missing JSON key), or it ran the polling
loop and produced its observable record. -/
inductive OAuthResult where
  /-- exception raised before any token request is issued -/
  | deviceError (msg : String) : OAuthResult
  /-- the polling loop ran and produced this record -/
  | polled (lr : LoopResult) : OAuthResult
deriving Repr, DecidableEq

/-- Embedding of `getHeaderOAuth` (lines 34-106): POST the device
authorization request; on a non-200 status raise immediately with the raw
response text; otherwise read `device_code` and `interval` (and print the
verification URI and `expires_in`) and enter the polling loop. -/
def getHeaderOAuth (dev : DeviceResponse) (toks : List TokenResponse) :
    OAuthResult :=
  if dev.status ≠ 200 then
    .deviceError ("Device authorization request failed: " ++ dev.text)
  else
    match dev.verification_uri_complete, dev.expires_in, dev.device_code, dev.interval with
    | some _, some _, some dc, some iv => .polled (pollLoop dc iv toks)
    | _, _, _, _ => .deviceError "KeyError"

/-- The token requests a run of `getHeaderOAuth` issued: none when it raised
before polling. -/
def OAuthResult.tokenRequests : OAuthResult → List TokenRequest
  | .deviceError _ => []
  | .polled lr => lr.requests

/-- A resource-server response to the download GET, holding what
`downloadOneFlight` reads: status code, the body as the sequence of chunks
`iter_content` yields, and the body text used in the error message.  Chunks
are modelled as strings of bytes. -/
structure GetResponse where
  status : Nat
  chunks : List String
  text : String
deriving Repr, DecidableEq

/-- An observable effect of `downloadOneFlight`. -/
inductive Effect where
  /-- a file at `path` ends up containing exactly `content` -/
  | fileWrite (path : String) (content : String) : Effect
  /-- `print(msg)` -/
  | printed (msg : String) : Effect
deriving Repr, DecidableEq

/-- The chunk-writing loop `for chunk in response.iter_content(...): if chunk:
f.write(chunk)`: the content the file ends up with is the concatenation of
the non-empty chunks in order. -/
def writeChunks : List String → String
  | [] => ""
  | c :: cs => (if c ≠ "" then c else "") ++ writeChunks cs

/-- Result of `downloadOneFlight`: its observable effects and the exception it
propagates, if any (`none` means the function returns normally). -/
structure DownloadResult where
  effects : List Effect
  raised : Option String
deriving Repr, DecidableEq

/-- Embedding of `downloadOneFlight` (lines 109-142) after the auth header has
been obtained: build `output_file = output_dir + "/" + flight + ".nc"`; on
status 200 stream the body to that file chunk by chunk (skipping empty
chunks) and print the success message; on any other status print the error
message with status code and body text.  Neither branch raises. -/
def downloadOneFlight (flight output_dir : String) (resp : GetResponse) :
    DownloadResult :=
  let output_file := output_dir ++ "/" ++ flight ++ ".nc"
  if resp.status = 200 then
    { effects := [ .fileWrite output_file (writeChunks resp.chunks),
                   .printed ("File downloaded : " ++ output_file) ]
      raised := none }
  else
    { effects := [ .printed ("Error " ++ toString resp.status ++ ": " ++ resp.text) ]
      raised := none }

/-- A status-400 token-endpoint response whose `error` field is
`authorization_pending`, with raw payload `text`. -/
def pendingResponse (text : String) : TokenResponse :=
  { status := 400, access_token := none, error := some "authorization_pending", text := text }

/-- A status-400 token-endpoint response whose `error` field is `slow_down`. -/
def slowDownResponse (text : String) : TokenResponse :=
  { status := 400, access_token := none, error := some "slow_down", text := text }

/-- A status-400 token-endpoint response whose `error` field is `expired_token`. -/
def expiredResponse (text : String) : TokenResponse :=
  { status := 400, access_token := none, error := some "expired_token", text := text }

/-- A status-400 token-endpoint response whose `error` field is `access_denied`. -/
def deniedResponse (text : String) : TokenResponse :=
  { status := 400, access_token := none, error := some "access_denied", text := text }

theorem pollStep_pending (iv : Nat) (ts : String) :
    pollStep iv (pendingResponse ts) = .retry iv iv := by
  simp [pollStep, pendingResponse]

theorem pollStep_slowDown (iv : Nat) (ts : String) :
    pollStep iv (slowDownResponse ts) = .retry (iv + 5) (iv + 5) := by
  simp [pollStep, slowDownResponse]

theorem pollLoop_cons_retry (dc : String) (iv s i2 : Nat) (r : TokenResponse)
    (rs : List TokenResponse) (h : pollStep iv r = .retry s i2) :
    pollLoop dc iv (r :: rs) =
      ⟨(pollLoop dc i2 rs).outcome,
       mkTokenRequest dc :: (pollLoop dc i2 rs).requests,
       s :: (pollLoop dc i2 rs).sleeps⟩ := by
  simp [pollLoop, h]

theorem pollLoop_cons_exn (dc : String) (iv : Nat) (m : String) (r : TokenResponse)
    (rs : List TokenResponse) (h : pollStep iv r = .exnRaise m) :
    pollLoop dc iv (r :: rs) = ⟨.exn m, [mkTokenRequest dc], []⟩ := by
  simp [pollLoop, h]

theorem pollLoop_requests_head (dc : String) (iv : Nat) (r : TokenResponse)
    (rs : List TokenResponse) :
    ∃ tail, (pollLoop dc iv (r :: rs)).requests = mkTokenRequest dc :: tail := by
  cases h : pollStep iv r with
  | success t => exact ⟨[], by simp [pollLoop, h]⟩
  | retry s i2 => exact ⟨(pollLoop dc i2 rs).requests, by simp [pollLoop, h]⟩
  | exnRaise m => exact ⟨[], by simp [pollLoop, h]⟩

theorem pollLoop_pending_replicate (dc ts : String) (iv n : Nat)
    (rs : List TokenResponse) :
    pollLoop dc iv (List.replicate n (pendingResponse ts) ++ rs) =
      ⟨(pollLoop dc iv rs).outcome,
       List.replicate n (mkTokenRequest dc) ++ (pollLoop dc iv rs).requests,
       List.replicate n iv ++ (pollLoop dc iv rs).sleeps⟩ := by
  induction n with
  | zero => simp
  | succ n ih =>
    rw [List.replicate_succ, List.cons_append,
      pollLoop_cons_retry dc iv iv iv _ _ (pollStep_pending iv ts), ih]
    simp [List.replicate_succ]

theorem pollLoop_slowDown_replicate (dc ts : String) (n : Nat) : ∀ iv : Nat,
    ∀ rs : List TokenResponse,
    pollLoop dc iv (List.replicate n (slowDownResponse ts) ++ rs) =
      ⟨(pollLoop dc (iv + 5 * n) rs).outcome,
       List.replicate n (mkTokenRequest dc) ++ (pollLoop dc (iv + 5 * n) rs).requests,
       (List.range n).map (fun k => iv + 5 * k + 5) ++ (pollLoop dc (iv + 5 * n) rs).sleeps⟩ := by
  induction n with
  | zero => intro iv rs; simp
  | succ n ih =>
    intro iv rs
    rw [List.replicate_succ, List.cons_append,
      pollLoop_cons_retry dc iv (iv + 5) (iv + 5) _ _ (pollStep_slowDown iv ts),
      ih (iv + 5) rs]
    have hiv : iv + 5 + 5 * n = iv + 5 * (n + 1) := by ring
    have hsl : (List.range (n + 1)).map (fun k => iv + 5 * k + 5) =
        (iv + 5) :: (List.range n).map (fun k => iv + 5 + 5 * k + 5) := by
      rw [List.range_succ_eq_map, List.map_cons, List.map_map]
      refine List.cons_eq_cons.mpr ⟨by omega, List.map_congr_left ?_⟩
      intro k hk
      simp only [Function.comp_apply, Nat.succ_eq_add_one]
      omega
    rw [hiv, hsl]
    simp [List.replicate_succ]

theorem writeChunks_join_cons (c : String) (cs : List String) :
    String.join (c :: cs) = c ++ String.join cs := by
  apply String.ext
  simp [String.data_join, String.data_append]

theorem writeChunks_eq_join (l : List String) : writeChunks l = String.join l := by
  induction l with
  | nil =>
    apply String.ext
    simp [writeChunks, String.data_join]
  | cons c cs ih =>
    rw [writeChunks, writeChunks_join_cons, ih]
    by_cases hc : c = ""
    · subst hc
      simp [String.empty_append]
    · simp [hc]

theorem writeChunks_eq_join_filter (l : List String) :
    writeChunks l = String.join (l.filter (fun c => c ≠ "")) := by
  induction l with
  | nil => rfl
  | cons c cs ih =>
    rw [writeChunks]
    by_cases hc : c = ""
    · subst hc
      simpa using ih
    · simp only [hc, if_pos, ne_eq, not_false_eq_true]
      rw [List.filter_cons_of_pos (by simp [hc]), writeChunks_join_cons, ih]

/-- C9: for every operator-entered string `t`, `getHeader` succeeds without any
validation or error path and returns exactly the mapping with `Authorization`
bound to `"Bearer " ++ t` and `Accept` bound to `application/octet-stream`. -/
theorem getHeader_returns_bearer_mapping (t : String) :
    getHeader t = [("Authorization", "Bearer " ++ t), ("Accept", "application/octet-stream")]
    ∧ (getHeader t).lookup "Authorization" = some ("Bearer " ++ t)
    ∧ (getHeader t).lookup "Accept" = some "application/octet-stream" := by
  refine ⟨rfl, ?_, ?_⟩ <;> simp [getHeader, List.lookup]

/-- C1: a token-endpoint response with status 200 whose body carries
`access_token = t` terminates the polling loop at once — one request, no
sleep — and returns the mapping with `Authorization` bound to
`"Bearer " ++ t` and `Accept` bound to `application/octet-stream`, whatever
the current interval, device code, error field, payload and remaining
responses. -/
theorem getHeaderOAuth_token200_returns_bearer (dc : String) (iv : Nat) (t : String)
    (e : Option String) (ts : String) (rs : List TokenResponse) :
    pollLoop dc iv ({ status := 200, access_token := some t, error := e, text := ts } :: rs) =
      ⟨.done [("Authorization", "Bearer " ++ t), ("Accept", "application/octet-stream")],
       [mkTokenRequest dc], []⟩ := by
  simp [pollLoop, pollStep, authHeader]

/-- C4: on any non-200 device-authorization response, `getHeaderOAuth` raises
immediately with the raw server response text attached, and issues no
token-endpoint request at all. -/
theorem getHeaderOAuth_deviceError_raises_immediately (dev : DeviceResponse)
    (toks : List TokenResponse) (h : dev.status ≠ 200) :
    getHeaderOAuth dev toks =
      .deviceError ("Device authorization request failed: " ++ dev.text)
    ∧ (getHeaderOAuth dev toks).tokenRequests = [] := by
  constructor <;> simp [getHeaderOAuth, h, OAuthResult.tokenRequests]

/-- A concrete failing device-authorization response (status 500, body
`boom`), used as the C4 witness input. -/
def badDeviceResponse : DeviceResponse :=
  { status := 500, device_code := none, interval := none,
    expires_in := none, verification_uri_complete := none, text := "boom" }

/-- Witness for C4 at a concrete 500 device response. -/
theorem getHeaderOAuth_deviceError_raises_immediately_witness :
    getHeaderOAuth badDeviceResponse [] =
      .deviceError ("Device authorization request failed: " ++ "boom")
    ∧ (getHeaderOAuth badDeviceResponse []).tokenRequests = [] :=
  getHeaderOAuth_deviceError_raises_immediately badDeviceResponse [] (by decide)

/-- C5: an `expired_token` response and an `access_denied` response each make
the polling loop raise immediately — a single request, no sleep — and the two
exception messages are distinct, the expired one mentioning expiry and the
denied one mentioning denial. -/
theorem getHeaderOAuth_expired_denied_raise_distinct (dc : String) (iv : Nat)
    (t1 t2 : String) (rs1 rs2 : List TokenResponse) :
    pollLoop dc iv (expiredResponse t1 :: rs1) =
      ⟨.exn "Device code expired. Please restart the authentication process.",
       [mkTokenRequest dc], []⟩
    ∧ pollLoop dc iv (deniedResponse t2 :: rs2) =
      ⟨.exn "Access denied by user.", [mkTokenRequest dc], []⟩
    ∧ ("Device code expired. Please restart the authentication process." : String) ≠
        "Access denied by user."
    ∧ (∃ a b : String,
        "Device code expired. Please restart the authentication process." =
          a ++ "expired" ++ b)
    ∧ (∃ a b : String, "Access denied by user." = a ++ "denied" ++ b) := by
  refine ⟨?_, ?_, by decide,
    ⟨"Device code ", ". Please restart the authentication process.", by decide⟩,
    ⟨"Access ", " by user.", by decide⟩⟩
  · simp [pollLoop, pollStep, expiredResponse]
  · simp [pollLoop, pollStep, deniedResponse]

theorem replicate_append_cons {α : Type} (n : Nat) (a : α) (tail : List α) :
    List.replicate n a ++ a :: tail = a :: (List.replicate n a ++ tail) := by
  induction n with
  | zero => rfl
  | succ n ih => simp [List.replicate_succ, ih]

/-- C2: each `slow_down` response increases the stored interval by exactly 5
and the loop sleeps and stays in the polling state, so after `n` such
responses the interval equals the initial interval plus `5 * n`, each of the
`n` occurrences slept (the `k`-th sleep being the already-increased
`iv + 5 * k + 5`), and the loop goes on to issue an `(n+1)`-st token request,
built with the same device code, as soon as another response is to be had. -/
theorem getHeaderOAuth_slowDown_increments_interval (dc ts : String) (iv n : Nat) :
    (pollLoop dc iv (List.replicate n (slowDownResponse ts))).outcome =
      .polling (iv + 5 * n)
    ∧ (pollLoop dc iv (List.replicate n (slowDownResponse ts))).sleeps =
        (List.range n).map (fun k => iv + 5 * k + 5)
    ∧ (∀ r : TokenResponse, ∀ rs : List TokenResponse, ∃ tail,
        (pollLoop dc iv (List.replicate n (slowDownResponse ts) ++ r :: rs)).requests =
          List.replicate (n + 1) (mkTokenRequest dc) ++ tail)
    ∧ (mkTokenRequest dc).device_code = dc := by
  have hbase := pollLoop_slowDown_replicate dc ts n iv []
  rw [List.append_nil] at hbase
  refine ⟨by rw [hbase]; simp [pollLoop], by rw [hbase]; simp [pollLoop], ?_, rfl⟩
  intro r rs
  obtain ⟨tail, htail⟩ := pollLoop_requests_head dc (iv + 5 * n) r rs
  refine ⟨tail, ?_⟩
  rw [pollLoop_slowDown_replicate dc ts n iv (r :: rs)]
  simp only [htail, List.replicate_succ, List.cons_append]
  exact replicate_append_cons n (mkTokenRequest dc) tail

/-- C3: an `authorization_pending` response makes the loop sleep exactly the
current interval `iv` — whatever it was last set to — leave the interval
unchanged, and issue the next token request with the same device code taken
from the device-authorization response. -/
theorem getHeaderOAuth_pending_sleeps_interval_and_retries (dc ts : String) (iv : Nat)
    (rs : List TokenResponse) :
    pollLoop dc iv (pendingResponse ts :: rs) =
      ⟨(pollLoop dc iv rs).outcome,
       mkTokenRequest dc :: (pollLoop dc iv rs).requests,
       iv :: (pollLoop dc iv rs).sleeps⟩
    ∧ (∀ r : TokenResponse, ∀ rs2 : List TokenResponse,
        (pollLoop dc iv (pendingResponse ts :: r :: rs2)).requests.take 2 =
          [mkTokenRequest dc, mkTokenRequest dc])
    ∧ (mkTokenRequest dc).device_code = dc := by
  refine ⟨pollLoop_cons_retry dc iv iv iv _ _ (pollStep_pending iv ts), ?_, rfl⟩
  intro r rs2
  obtain ⟨tail, htail⟩ := pollLoop_requests_head dc iv r rs2
  rw [pollLoop_cons_retry dc iv iv iv _ _ (pollStep_pending iv ts)]
  simp [htail]

/-- C8: the polling loop is unbounded — after any finite number `n` of
`authorization_pending` responses it is still in the polling state with the
interval unchanged, having issued `n` requests and slept `n` times, and it
issues an `(n+1)`-st request as soon as another response is to be had; no
attempt cap and no client-side `expires_in` deadline exists in the loop. -/
theorem getHeaderOAuth_polling_unbounded (dc ts : String) (iv n : Nat) :
    pollLoop dc iv (List.replicate n (pendingResponse ts)) =
      ⟨.polling iv, List.replicate n (mkTokenRequest dc), List.replicate n iv⟩
    ∧ (∀ r : TokenResponse, ∀ rs : List TokenResponse, ∃ tail,
        (pollLoop dc iv (List.replicate n (pendingResponse ts) ++ r :: rs)).requests =
          List.replicate (n + 1) (mkTokenRequest dc) ++ tail) := by
  constructor
  · have hbase := pollLoop_pending_replicate dc ts iv n []
    rw [List.append_nil] at hbase
    rw [hbase]
    simp [pollLoop]
  · intro r rs
    obtain ⟨tail, htail⟩ := pollLoop_requests_head dc iv r rs
    refine ⟨tail, ?_⟩
    rw [pollLoop_pending_replicate dc ts iv n (r :: rs)]
    simp only [htail, List.replicate_succ, List.cons_append]
    exact replicate_append_cons n (mkTokenRequest dc) tail

/-- C10: a 400 token-endpoint response whose JSON body has no `error` field is
read as `none`, falls into the catch-all branch and raises at once — one
request, no sleep, no retry — with the error payload attached, and the loop
body treats it exactly as it treats any unrecognised `error` value. -/
theorem getHeaderOAuth_missing_error_field_raises (dc : String) (iv : Nat)
    (a : Option String) (ts : String) (rs : List TokenResponse) :
    pollLoop dc iv ({ status := 400, access_token := a, error := none, text := ts } :: rs) =
      ⟨.exn ("Authentication error: " ++ ts), [mkTokenRequest dc], []⟩
    ∧ (∀ e : String, e ≠ "authorization_pending" → e ≠ "slow_down" →
        e ≠ "expired_token" → e ≠ "access_denied" →
        pollStep iv { status := 400, access_token := a, error := some e, text := ts } =
          pollStep iv { status := 400, access_token := a, error := none, text := ts }) := by
  constructor
  · simp [pollLoop, pollStep]
  · intro e h1 h2 h3 h4
    simp [pollStep, h1, h2, h3, h4]

/-- Witness for C10: concrete missing-field response and the unrecognised
error value `bogus`. -/
theorem getHeaderOAuth_missing_error_field_raises_witness :
    pollLoop "abc" 5 [{ status := 400, access_token := none, error := none, text := "payload" }] =
      ⟨.exn ("Authentication error: " ++ "payload"), [mkTokenRequest "abc"], []⟩
    ∧ pollStep 5 { status := 400, access_token := none, error := some "bogus", text := "payload" } =
        pollStep 5 { status := 400, access_token := none, error := none, text := "payload" } :=
  ⟨(getHeaderOAuth_missing_error_field_raises "abc" 5 none "payload" []).1,
   (getHeaderOAuth_missing_error_field_raises "abc" 5 none "payload" []).2 "bogus"
     (by decide) (by decide) (by decide) (by decide)⟩

/-- C6: on a 200 resource-server response, `downloadOneFlight` writes the file
at `output_dir ++ "/" ++ flight ++ ".nc"` whose content is the concatenation
of the non-empty chunks, which equals the concatenation of all chunks — the
whole response body — and returns normally; in particular flight `F1`,
output directory `/tmp` and body `NCDATA` yield `/tmp/F1.nc` containing
exactly `NCDATA`. -/
theorem downloadOneFlight_200_writes_body (flight output_dir ts : String)
    (chunks : List String) :
    downloadOneFlight flight output_dir { status := 200, chunks := chunks, text := ts } =
      { effects := [ .fileWrite (output_dir ++ "/" ++ flight ++ ".nc") (writeChunks chunks),
                     .printed ("File downloaded : " ++ (output_dir ++ "/" ++ flight ++ ".nc")) ],
        raised := none }
    ∧ writeChunks chunks = String.join (chunks.filter (fun c => c ≠ ""))
    ∧ writeChunks chunks = String.join chunks
    ∧ downloadOneFlight "F1" "/tmp" { status := 200, chunks := ["NCDATA"], text := "" } =
      { effects := [ .fileWrite "/tmp/F1.nc" "NCDATA",
                     .printed "File downloaded : /tmp/F1.nc" ],
        raised := none }
    ∧ downloadOneFlight "F1" "/tmp" { status := 200, chunks := ["NC", "", "DATA"], text := "" } =
      { effects := [ .fileWrite "/tmp/F1.nc" "NCDATA",
                     .printed "File downloaded : /tmp/F1.nc" ],
        raised := none } := by
  refine ⟨by simp [downloadOneFlight], writeChunks_eq_join_filter chunks,
    writeChunks_eq_join chunks, ?_, ?_⟩ <;> decide

/-- C7: on any non-200 resource-server response, `downloadOneFlight` writes no
file, prints a message carrying the status code and the response body text,
and returns normally without raising. -/
theorem downloadOneFlight_non200_prints_no_write (flight output_dir : String)
    (resp : GetResponse) (h : resp.status ≠ 200) :
    downloadOneFlight flight output_dir resp =
      { effects := [.printed ("Error " ++ toString resp.status ++ ": " ++ resp.text)],
        raised := none }
    ∧ (∀ p c : String,
        Effect.fileWrite p c ∉ (downloadOneFlight flight output_dir resp).effects)
    ∧ (downloadOneFlight flight output_dir resp).raised = none := by
  refine ⟨by simp [downloadOneFlight, h], ?_, by simp [downloadOneFlight, h]⟩
  intro p c
  simp [downloadOneFlight, h]

/-- Witness for C7: a 404 response with body `not found` prints the error
message with both, writes nothing, and returns normally. -/
theorem downloadOneFlight_non200_prints_no_write_witness :
    downloadOneFlight "F1" "/tmp" { status := 404, chunks := [], text := "not found" } =
      { effects := [.printed ("Error " ++ toString (404 : Nat) ++ ": " ++ "not found")],
        raised := none }
    ∧ (∀ p c : String, Effect.fileWrite p c ∉
        (downloadOneFlight "F1" "/tmp" { status := 404, chunks := [], text := "not found" }).effects)
    ∧ (downloadOneFlight "F1" "/tmp" { status := 404, chunks := [], text := "not found" }).raised = none :=
  downloadOneFlight_non200_prints_no_write "F1" "/tmp"
    { status := 404, chunks := [], text := "not found" } (by decide)

end IagosEnvri
